import Mathlib

/-!
Verification of the blog-publisher repository: a shallow embedding of its
settings store, content store, publisher adapters, OAuth credential manager
and backup/restore utilities, together with theorems settling the frozen
claims about them.

Sources embedded:
- blog_publisher/models.py (package_structure.py) and the monolithic
  blog_publisher_main.py: Setting, AvailableTag, AvailableCategory, Post;
- blog_publisher/api/publishers.py and blogger.py (api_publishers.py):
  BlogAPI.publish_to_blogger, BlogAPI.publish_to_wordpress,
  BloggerAPI.handle_callback, BloggerAPI.get_credentials;
- blog_publisher/routes/posts.py (route_blueprints.py) and
  blog_publisher_main.py: save_post, publish_post, delete_post handlers;
- blog_publisher/utils.py (final_package_files.py): backup_database,
  restore_database.

Outbound HTTP and the Google OAuth library are modelled as oracles passed
in as function arguments; every call made through an oracle is recorded in
the returned trace (a list of requests, or a call counter), so "performs
zero network calls" is a statement about the trace.
-/

namespace BlogPublisher

/-! ## Python string primitives

Python `str.split(sep)`, `str.strip()`, `str.rstrip(chars)` modelled
structurally over the character list so that concrete evaluation reduces
in the kernel. `pySplit` matches Python `split` on a one-character
separator: `"".split(',') = [""]` and separators at the ends produce empty
entries. -/

def splitCharAux (sep : Char) : List Char → List (List Char)
  | [] => [[]]
  | c :: cs =>
    let r := splitCharAux sep cs
    if c == sep then [] :: r
    else
      match r with
      | [] => [[c]]
      | h :: t => (c :: h) :: t

def pySplit (sep : Char) (s : String) : List String :=
  (splitCharAux sep s.data).map (fun l => String.mk l)

def isSpaceChar (c : Char) : Bool :=
  c == ' ' || c == '\t' || c == '\n' || c == '\r' || c == '\x0b' || c == '\x0c'

/-- Python `str.strip()`: drop whitespace from both ends. -/
def pyStrip (s : String) : String :=
  String.mk (((s.data.dropWhile isSpaceChar).reverse.dropWhile isSpaceChar).reverse)

/-- Python `str.rstrip('/')`: drop trailing slashes. -/
def rstripSlash (s : String) : String :=
  String.mk ((s.data.reverse.dropWhile (fun c => c == '/')).reverse)

/-- Python `str.endswith(suffix)`. -/
def pyEndsWith (s suffix : String) : Bool :=
  suffix.data.isSuffixOf s.data

/-! ## Settings Store (models.py `Setting`)

`key` is a unique column, so the store is an association list with at most
one binding per key; `Setting.get` returns the first binding (as
`query.filter_by(key=key).first()` does) and `Setting.set` overwrites in
place or appends. A value read out of the store is `Option String`
(`None` when no row exists); Python truthiness of that result is
`truthy`. -/

abbrev Settings := List (String × String)

def Setting.get (s : Settings) (key : String) : Option String :=
  (s.find? (fun p => p.1 == key)).map (fun p => p.2)

def Setting.set (s : Settings) (key value : String) : Settings :=
  if s.any (fun p => p.1 == key) then
    s.map (fun p => if p.1 == key then (key, value) else p)
  else
    s ++ [(key, value)]

/-- Python truthiness of a `Setting.get` result: `None` and `""` are falsy. -/
def truthy : Option String → Bool
  | none => false
  | some v => !(v == "")

/-! ## Post (models.py `Post`)

Dates are modelled as `Nat` timestamps. `published_date`, `blog_target`
and `external_id` are nullable columns. `tags` and `categories` are
comma-joined strings; every creation path in the source sets them (default
`''`), so they are plain `String`s here. -/

structure Post where
  id : Nat
  title : String
  content : String
  status : String
  created_date : Nat
  published_date : Option Nat
  blog_target : Option String
  external_id : Option String
  tags : String
  categories : String
deriving Repr, DecidableEq

/-! ## HTTP model

A WordPress publish request as assembled by `publish_to_wordpress`: the
URL, the JSON payload fields, the basic-auth pair and the `timeout=`
keyword (absent in the monolithic copy of the function). The oracle
`http : HttpRequest → HttpResponse` stands for `requests.post`; the
response carries `status_code`, `text`, and the body's `id` field (the
only JSON field the source reads). -/

structure HttpRequest where
  url : String
  payloadTitle : String
  payloadContent : String
  payloadStatus : String
  payloadCategories : Option (List String)
  payloadTags : Option (List String)
  authUser : String
  authPassword : String
  timeout : Option Nat
deriving Repr, DecidableEq

structure HttpResponse where
  status_code : Nat
  text : String
  idField : String
deriving Repr, DecidableEq

inductive PublishError where
  | config (msg : String)
  | api (msg : String)
deriving Repr, DecidableEq

/-! ## BlogAPI.publish_to_wordpress

Two copies exist in the repository: `blog_publisher/api/publishers.py`
passes `timeout=30` to `requests.post`; the duplicated copy inside
`blog_publisher_main.py` passes no timeout. Both are instances of
`publish_to_wordpress_core`, differing only in the `timeout` field of the
single request they issue. The returned list is the trace of HTTP calls
made. -/

/-- The single request `publish_to_wordpress` assembles: the joined URL,
the JSON payload (fixed `status: "publish"`, optional comma-split/stripped
`categories` and `tags`), the basic-auth pair, and the `timeout` keyword
if the copy passes one. -/
def wpRequest (timeout : Option Nat) (settings : Settings) (post : Post) :
    HttpRequest :=
  { url := rstripSlash ((Setting.get settings "wordpress_url").getD "") ++
             "/wp-json/wp/v2/posts"
    payloadTitle := post.title
    payloadContent := post.content
    payloadStatus := "publish"
    payloadCategories :=
      if post.categories == "" then none
      else some ((pySplit ',' post.categories).map pyStrip)
    payloadTags :=
      if post.tags == "" then none
      else some ((pySplit ',' post.tags).map pyStrip)
    authUser := (Setting.get settings "wordpress_username").getD ""
    authPassword := (Setting.get settings "wordpress_password").getD ""
    timeout := timeout }

def publish_to_wordpress_core (timeout : Option Nat) (settings : Settings)
    (post : Post) (http : HttpRequest → HttpResponse) :
    Except PublishError String × List HttpRequest :=
  let wp_url := Setting.get settings "wordpress_url"
  let wp_user := Setting.get settings "wordpress_username"
  let wp_password := Setting.get settings "wordpress_password"
  if !(truthy wp_url && truthy wp_user && truthy wp_password) then
    (Except.error (PublishError.config "WordPress credentials not configured"), [])
  else
    let req := wpRequest timeout settings post
    let resp := http req
    if resp.status_code == 201 then
      (Except.ok resp.idField, [req])
    else
      (Except.error (PublishError.api ("WordPress API error: " ++ resp.text)), [req])

/-- `BlogAPI.publish_to_wordpress` from `blog_publisher/api/publishers.py`
(`timeout=30`). -/
def publish_to_wordpress (settings : Settings) (post : Post)
    (http : HttpRequest → HttpResponse) :
    Except PublishError String × List HttpRequest :=
  publish_to_wordpress_core (some 30) settings post http

/-- The duplicated `BlogAPI.publish_to_wordpress` inside
`blog_publisher_main.py`, whose `requests.post` call passes no
`timeout=` keyword. -/
def publish_to_wordpress_main (settings : Settings) (post : Post)
    (http : HttpRequest → HttpResponse) :
    Except PublishError String × List HttpRequest :=
  publish_to_wordpress_core none settings post http

/-! ## BlogAPI.publish_to_blogger

The platform post object (`blog_post` dict) built by the source: `title`,
`content`, and — only when `post.tags` is truthy — a `labels` list
obtained by `[tag.strip() for tag in post.tags.split(',')]`. Categories
never enter the payload. The Google SDK `posts().insert` call is an
oracle receiving the configured blog id and the payload. -/

structure BloggerPostPayload where
  title : String
  content : String
  labels : Option (List String)
deriving Repr, DecidableEq

def build_blogger_post (post : Post) : BloggerPostPayload :=
  { title := post.title
    content := post.content
    labels :=
      if post.tags == "" then none
      else some ((pySplit ',' post.tags).map pyStrip) }

/-- The spec's wording of the label mapping ("comma-split, trimmed, empty
entries dropped"), for comparison with `build_blogger_post` taken from the
source. -/
def build_blogger_post_specVersion (post : Post) : BloggerPostPayload :=
  { title := post.title
    content := post.content
    labels :=
      if post.tags == "" then none
      else some (((pySplit ',' post.tags).map pyStrip).filter (fun t => !(t == ""))) }

def publish_to_blogger (settings : Settings) (post : Post)
    (insert : Option String → BloggerPostPayload → Except String String) :
    Except PublishError String :=
  let blog_id := Setting.get settings "blogger_blog_id"
  match insert blog_id (build_blogger_post post) with
  | Except.ok resultId => Except.ok resultId
  | Except.error e => Except.error (PublishError.api ("Blogger API error: " ++ e))

/-! ## AvailableTag / AvailableCategory (models.py)

The two models are column-for-column identical, and their static methods
are line-for-line identical up to renaming, so one record type and one set
of functions embed both. `created_date` is kept because backup exports
it. `add_tag` creates a row with the column default `usage_count = 0`. -/

structure AvailableTag where
  name : String
  usage_count : Nat
  description : String
  created_date : Nat
deriving Repr, DecidableEq

def add_tag (store : List AvailableTag) (name description : String) (now : Nat) :
    List AvailableTag :=
  match store.find? (fun t => t.name == pyStrip name) with
  | some _ => store
  | none => store ++ [{ name := pyStrip name, usage_count := 0,
                        description := description, created_date := now }]

/-- One iteration of the `increment_usage` loop body: bump an existing
tag's count, or auto-add a missing tag (via `add_tag`, hence with the
default count 0). -/
def bumpTag (now : Nat) (store : List AvailableTag) (tag_name : String) :
    List AvailableTag :=
  if store.any (fun t => t.name == tag_name) then
    store.map (fun t =>
      if t.name == tag_name then { t with usage_count := t.usage_count + 1 } else t)
  else
    add_tag store tag_name "" now

/-- `AvailableTag.increment_usage(tag_names)` (identically
`AvailableCategory.increment_usage`): split on commas, strip, keep truthy
entries, then bump or auto-add each in order. -/
def increment_usage (store : List AvailableTag) (tag_names : String) (now : Nat) :
    List AvailableTag :=
  if tag_names == "" then store
  else
    (((pySplit ',' tag_names).map pyStrip).filter (fun t => !(t == ""))).foldl
      (bumpTag now) store

/-! ## BloggerAPI: OAuth credential manager

The credential blob persisted under the fixed settings key
`blogger_credentials` is `json.dumps` of a six-field dict; the model
serializes the same six fields with newline separators (fields are taken
newline-free, as real tokens, URIs and scope strings are) and
deserializes by splitting back. Token exchange (`flow.fetch_token`) and
token refresh (`credentials.refresh`) are oracles; each model function
returns the number of such network calls it made. Whether the access
token is expired is the Google library's judgement, modelled as the
`isExpired` predicate argument. -/

structure CredData where
  token : String
  refresh_token : String
  token_uri : String
  client_id : String
  client_secret : String
  scopes : List String
deriving Repr, DecidableEq

def serializeCreds (c : CredData) : String :=
  c.token ++ "\n" ++ c.refresh_token ++ "\n" ++ c.token_uri ++ "\n" ++
    c.client_id ++ "\n" ++ c.client_secret ++ "\n" ++
    String.intercalate "\t" c.scopes

def deserializeCreds (s : String) : Option CredData :=
  match pySplit '\n' s with
  | [t, r, u, ci, cs, sc] =>
      some { token := t, refresh_token := r, token_uri := u,
             client_id := ci, client_secret := cs, scopes := pySplit '\t' sc }
  | _ => none

inductive CallbackError where
  | authState (msg : String)
  | exchange (msg : String)
deriving Repr, DecidableEq

/-- `BloggerAPI.handle_callback(code, state)`: compare `state` against the
persisted `blogger_oauth_state` (one equality; a missing stored state never
matches), then exchange the code for a token set and persist the blob.
Returns the outcome, the settings store after the call, and the number of
token-exchange network calls performed. -/
def handle_callback (settings : Settings) (code state : String)
    (fetchToken : String → Except String CredData) :
    Except CallbackError Bool × Settings × Nat :=
  let stored_state := Setting.get settings "blogger_oauth_state"
  if stored_state ≠ some state then
    (Except.error (CallbackError.authState "Invalid OAuth state"), settings, 0)
  else
    match fetchToken code with
    | Except.error e => (Except.error (CallbackError.exchange e), settings, 1)
    | Except.ok creds =>
        (Except.ok true,
         Setting.set settings "blogger_credentials" (serializeCreds creds), 1)

/-- `BloggerAPI.get_credentials()`: `None` when the stored blob is falsy;
otherwise deserialize (a blob `json.loads` cannot parse crashes the call:
`Except.error`), refresh once and persist when expired, and return the
credential. Result: outcome, settings store after the call, number of
refresh network calls. -/
def get_credentials (settings : Settings) (isExpired : CredData → Bool)
    (refreshCred : CredData → Except String CredData) :
    Except String (Option CredData) × Settings × Nat :=
  let creds_json := Setting.get settings "blogger_credentials"
  if !(truthy creds_json) then
    (Except.ok none, settings, 0)
  else
    match deserializeCreds (creds_json.getD "") with
    | none => (Except.error "invalid credential blob", settings, 0)
    | some creds =>
        if isExpired creds then
          match refreshCred creds with
          | Except.error e => (Except.error e, settings, 1)
          | Except.ok refreshed =>
              (Except.ok (some refreshed),
               Setting.set settings "blogger_credentials" (serializeCreds refreshed), 1)
        else
          (Except.ok (some creds), settings, 0)

/-! ## Web layer: save / publish / delete handlers

`Database` is the whole persisted state. JSON route responses are either
`{'success': True, ...}` or `{'success': False, 'error': ...}`. -/

structure Database where
  settings : Settings
  posts : List Post
  tags : List AvailableTag
  categories : List AvailableTag
deriving Repr, DecidableEq

inductive JsonResponse where
  | success (msg : String)
  | successId (id : Nat)
  | failure (err : String)
deriving Repr, DecidableEq

/-- Python truthiness of `data.get('id')` (an absent or zero id is falsy). -/
def truthyId : Option Nat → Bool
  | none => false
  | some n => !(n == 0)

/-- The JSON body accepted by the save route; `tags`/`categories` carry the
`data.get(key, '')` default. -/
structure SaveData where
  id : Option Nat
  title : String
  content : String
  tags : String
  categories : String
deriving Repr, DecidableEq

def publishErrorMessage : PublishError → String
  | PublishError.config m => m
  | PublishError.api m => m

/-- The `save_post` route (`routes/posts.py` and the identical copy in
`blog_publisher_main.py`): update an existing post's `title`, `content`,
`tags`, `categories`, or create a fresh draft with `blog_target`
snapshotted from the configured `blog_type`; then apply both usage-count
increments and commit. `none` models the `AttributeError` crash when a
truthy id does not resolve to a post. `now` is the clock, `nextId` the
autoincrement id a fresh row would get. -/
def save_post_route (db : Database) (data : SaveData) (now nextId : Nat) :
    Option (Database × JsonResponse) :=
  if truthyId data.id then
    match db.posts.find? (fun p => p.id == data.id.getD 0) with
    | none => none
    | some post =>
        let post1 := { post with
          title := data.title
          content := data.content
          tags := data.tags
          categories := data.categories }
        some ({ db with
                posts := db.posts.map (fun q => if q.id == post1.id then post1 else q),
                tags := increment_usage db.tags post1.tags now,
                categories := increment_usage db.categories post1.categories now },
              JsonResponse.successId post1.id)
  else
    let post1 : Post :=
      { id := nextId, title := data.title, content := data.content,
        status := "draft", created_date := now, published_date := none,
        blog_target := Setting.get db.settings "blog_type",
        external_id := none, tags := data.tags, categories := data.categories }
    some ({ db with
            posts := db.posts ++ [post1],
            tags := increment_usage db.tags post1.tags now,
            categories := increment_usage db.categories post1.categories now },
          JsonResponse.successId post1.id)

/-- The `publish_post` route. The blueprint copy (`routes/posts.py`)
publishes to WordPress through the api-module function (`timeout=30`); the
monolithic copy calls its own duplicate (no timeout); `wpTimeout`
abstracts over the two. Returns the post table after the request, the JSON
response, and the HTTP trace. -/
def publish_post_route_core (wpTimeout : Option Nat) (settings : Settings)
    (posts : List Post) (postId : Option Nat) (now : Nat)
    (http : HttpRequest → HttpResponse) :
    List Post × JsonResponse × List HttpRequest :=
  if !(truthyId postId) then
    (posts, JsonResponse.failure "Post ID required", [])
  else
    match posts.find? (fun p => p.id == postId.getD 0) with
    | none => (posts, JsonResponse.failure "Post not found", [])
    | some post =>
        let blog_type := Setting.get settings "blog_type"
        if blog_type == some "blogger" then
          (posts.map (fun q =>
             if q.id == post.id then
               { post with
                 status := "published"
                 published_date := some now
                 external_id := some "blogger_post_id" }
             else q),
           JsonResponse.success "Post published successfully!", [])
        else if blog_type == some "wordpress" then
          match publish_to_wordpress_core wpTimeout settings post http with
          | (Except.ok extId, reqs) =>
              (posts.map (fun q =>
                 if q.id == post.id then
                   { post with
                     status := "published"
                     published_date := some now
                     external_id := some extId }
                 else q),
               JsonResponse.success "Post published successfully!", reqs)
          | (Except.error e, reqs) =>
              (posts, JsonResponse.failure (publishErrorMessage e), reqs)
        else (posts, JsonResponse.failure "No blog platform configured", [])

/-- `publish_post` of `routes/posts.py` (uses the api-module WordPress
function, `timeout=30`). -/
def publish_post_route (settings : Settings) (posts : List Post)
    (postId : Option Nat) (now : Nat) (http : HttpRequest → HttpResponse) :
    List Post × JsonResponse × List HttpRequest :=
  publish_post_route_core (some 30) settings posts postId now http

/-- `publish_post` of the monolithic `blog_publisher_main.py` (uses the
duplicated WordPress function with no timeout). -/
def publish_post_route_main (settings : Settings) (posts : List Post)
    (postId : Option Nat) (now : Nat) (http : HttpRequest → HttpResponse) :
    List Post × JsonResponse × List HttpRequest :=
  publish_post_route_core none settings posts postId now http

/-- The `delete_post` route: remove the row with the given primary key
(`get_or_404` finds at most one; a missing id aborts without change,
which coincides with removing nothing). -/
def delete_post_route (posts : List Post) (postId : Nat) : List Post :=
  posts.filter (fun p => !(p.id == postId))

/-! ## utils.py: backup_database / restore_database -/

structure PostExport where
  title : String
  content : String
  status : String
  created_date : Nat
  published_date : Option Nat
  blog_target : Option String
  external_id : Option String
  tags : String
  categories : String
deriving Repr, DecidableEq

structure TagExport where
  name : String
  description : String
  usage_count : Nat
  created_date : Nat
deriving Repr, DecidableEq

structure BackupDoc where
  posts : List PostExport
  tags : List TagExport
  categories : List TagExport
  settings : List (String × String)
deriving Repr, DecidableEq

def exportPost (p : Post) : PostExport :=
  { title := p.title, content := p.content, status := p.status,
    created_date := p.created_date, published_date := p.published_date,
    blog_target := p.blog_target, external_id := p.external_id,
    tags := p.tags, categories := p.categories }

def exportTag (t : AvailableTag) : TagExport :=
  { name := t.name, description := t.description,
    usage_count := t.usage_count, created_date := t.created_date }

/-- The settings section of the backup: every stored setting whose key
ends in neither `_password` nor `_secret`. -/
def backupSettings (settings : Settings) : List (String × String) :=
  settings.filter (fun p =>
    !(pyEndsWith p.1 "_password") && !(pyEndsWith p.1 "_secret"))

def backup_database (db : Database) : BackupDoc :=
  { posts := db.posts.map exportPost
    tags := db.tags.map exportTag
    categories := db.categories.map exportTag
    settings := backupSettings db.settings }

/-- The tag (or category) row built by the restore loop: name, description
and usage count come from the backup; `created_date` is not restored
(column default). -/
def restoredTag (now : Nat) (td : TagExport) : AvailableTag :=
  { name := td.name, usage_count := td.usage_count,
    description := td.description, created_date := now }

/-- One step of the tag (or category) restore loop: skip names already
present, otherwise add the row. -/
def restoreTag (now : Nat) (store : List AvailableTag) (td : TagExport) :
    List AvailableTag :=
  if store.any (fun t => t.name == td.name) then store
  else store ++ [restoredTag now td]

def restoreTags (now : Nat) (store : List AvailableTag) (tds : List TagExport) :
    List AvailableTag :=
  tds.foldl (restoreTag now) store

/-- The post row built by the restore loop: `published_date` and
`created_date` are not among the constructor arguments in the source, so
the restored row has `published_date = None` and a fresh `created_date`,
whatever the backup says. -/
def restorePost (nextId now idx : Nat) (pd : PostExport) : Post :=
  { id := nextId + idx, title := pd.title, content := pd.content,
    status := pd.status, created_date := now, published_date := none,
    blog_target := pd.blog_target, external_id := pd.external_id,
    tags := pd.tags, categories := pd.categories }

def restorePosts (now nextId : Nat) (posts : List Post) (pds : List PostExport) :
    List Post :=
  posts ++ pds.enum.map (fun pr => restorePost nextId now pr.1 pr.2)

def restoreSettings (settings : Settings) (kvs : List (String × String)) : Settings :=
  kvs.foldl (fun s kv => Setting.set s kv.1 kv.2) settings

structure RestoreResults where
  posts : Nat
  tags : Nat
  categories : Nat
  settings : Nat
deriving Repr, DecidableEq

def restore_database (doc : BackupDoc) (db : Database) (now nextId : Nat) :
    Database × RestoreResults :=
  let tags1 := restoreTags now db.tags doc.tags
  let cats1 := restoreTags now db.categories doc.categories
  let posts1 := restorePosts now nextId db.posts doc.posts
  let settings1 := restoreSettings db.settings doc.settings
  ({ settings := settings1, posts := posts1, tags := tags1, categories := cats1 },
   { posts := doc.posts.length,
     tags := tags1.length - db.tags.length,
     categories := cats1.length - db.categories.length,
     settings := doc.settings.length })

/-! ## Concrete fixtures used by counterexamples and witnesses -/

def emptyDatabase : Database :=
  { settings := [], posts := [], tags := [], categories := [] }

/-- An HTTP oracle that always answers 201 with body id `7`. -/
def http201 : HttpRequest → HttpResponse :=
  fun _ => { status_code := 201, text := "created", idField := "7" }

/-- An HTTP oracle that always answers 403 with an error body. -/
def http403 : HttpRequest → HttpResponse :=
  fun _ => { status_code := 403, text := "Sorry, you are not allowed to do that.", idField := "" }

/-- A fully configured WordPress settings store. -/
def wpSettings : Settings :=
  [("wordpress_url", "http://example.com/"),
   ("wordpress_username", "u"),
   ("wordpress_password", "p")]

/-- A draft post whose tags string contains an empty entry. -/
def draftPost : Post :=
  { id := 1, title := "T", content := "C", status := "draft",
    created_date := 0, published_date := none, blog_target := some "blogger",
    external_id := none, tags := "a,,b", categories := "x" }

/-- A post already published to Blogger. -/
def publishedPost : Post :=
  { id := 1, title := "t", content := "c", status := "published",
    created_date := 0, published_date := some 3, blog_target := some "blogger",
    external_id := some "blogger_post_id", tags := "", categories := "" }

/-- A backup document holding one published post (both `published_date`
and `external_id` recorded). -/
def publishedBackup : BackupDoc :=
  { posts := [{ title := "t", content := "c", status := "published",
                created_date := 1, published_date := some 5,
                blog_target := some "wordpress", external_id := some "77",
                tags := "", categories := "" }],
    tags := [], categories := [], settings := [] }

/-- A concrete credential record. -/
def cred0 : CredData :=
  { token := "old-token", refresh_token := "refresh-1",
    token_uri := "https://oauth2.googleapis.com/token",
    client_id := "cid", client_secret := "csecret",
    scopes := ["https://www.googleapis.com/auth/blogger"] }

/-- `cred0` after a refresh that reuses the refresh token. -/
def cred0refreshed : CredData :=
  { cred0 with token := "new-token" }

/-- Expiry judgement used by the fixtures: only `old-token` is expired. -/
def isExpired0 : CredData → Bool := fun c => c.token == "old-token"

/-- Refresh oracle used by the fixtures. -/
def refresh0 : CredData → Except String CredData :=
  fun c => Except.ok { c with token := "new-token" }

/-- A settings store holding the serialized `cred0` blob. -/
def credSettings : Settings :=
  [("blogger_credentials", serializeCreds cred0)]

/-- A settings store holding the serialized, non-expired refreshed blob. -/
def credSettingsFresh : Settings :=
  [("blogger_credentials", serializeCreds cred0refreshed)]

/-! ## Theorems settling the claims -/

/-- C7. Applying the tag usage increment for `tags = "a, b ,b"` to an empty
tag store: the code auto-adds `a` and `b` through `add_tag`, whose row is
created with the column default `usage_count = 0` and is NOT incremented
for the occurrence that created it. So `a` ends at 0 (the claim says +1)
and `b` ends at 1 (the claim says +2); only tags already present when the
increment runs gain the claimed counts. Names are stripped, so no
whitespace-named tag appears. -/
theorem c7_increment_usage_on_empty_store :
    increment_usage [] "a, b ,b" 0 =
      [{ name := "a", usage_count := 0, description := "", created_date := 0 },
       { name := "b", usage_count := 1, description := "", created_date := 0 }] := by
  rfl

/-- C9. The backup's settings section filters only on the `_password` and
`_secret` key suffixes, so the Platform A credential blob stored under the
fixed key `blogger_credentials` passes the filter and appears verbatim in
the exported document, contrary to the claim (and to the source's own
"excluding sensitive data" comment). -/
theorem c9_backup_exports_credential_blob :
    (backup_database
      { settings := [("blog_type", "blogger"),
                     ("blogger_client_secret", "csecret"),
                     ("wordpress_password", "pw"),
                     ("blogger_credentials", serializeCreds cred0)],
        posts := [], tags := [], categories := [] }).settings =
      [("blog_type", "blogger"),
       ("blogger_credentials", serializeCreds cred0)] := by
  rfl

/-- C8 counterexample. `publish_to_blogger` builds labels with
`[tag.strip() for tag in post.tags.split(',')]`: for `tags = "a,,b"` the
empty entry is trimmed but NOT dropped, so the payload differs from the
spec's "empty entries dropped" mapping. -/
theorem c8_counterexample_empty_label_kept :
    (build_blogger_post draftPost).labels = some ["a", "", "b"] ∧
    build_blogger_post draftPost ≠ build_blogger_post_specVersion draftPost := by
  constructor
  · rfl
  · decide

/-- C3 counterexample. With all three WordPress settings configured, the
duplicated `publish_to_wordpress` inside `blog_publisher_main.py` issues
its single POST with no `timeout=` keyword: the request's timeout field is
`none`, not the claimed 30 seconds. -/
theorem c3_counterexample_main_copy_has_no_timeout :
    ((publish_to_wordpress_main wpSettings draftPost http201).2.map
        HttpRequest.timeout) = [none] := by
  rfl

/-- C1 counterexample. (i) Restoring a backup of a published post creates a
row with `external_id` set but `published_date = None` (the restore loop
never passes `published_date` to the constructor), so the two fields are
set apart. (ii) A second successful publish of an already-published post
overwrites `published_date` (from 3 to 8) — the pair is not set
exactly once. -/
theorem c1_counterexample_restore_and_republish :
    (((restore_database publishedBackup emptyDatabase 9 1).1).posts.map
        (fun p => (p.external_id, p.published_date)) = [(some "77", none)]) ∧
    ((publish_post_route_core none [("blog_type", "blogger")] [publishedPost]
        (some 1) 8 http201).1.map (fun p => p.published_date) = [some 8]) := by
  constructor
  · rfl
  · rfl

/-- C2. If any of the three WordPress settings is missing or empty (falsy
after `Setting.get`), both copies of `publish_to_wordpress` fail with the
configuration error and their HTTP trace is empty: the check precedes the
`requests.post` call. -/
theorem c2_wordpress_missing_config_no_http
    (settings : Settings) (post : Post) (http : HttpRequest → HttpResponse)
    (h : truthy (Setting.get settings "wordpress_url") = false ∨
         truthy (Setting.get settings "wordpress_username") = false ∨
         truthy (Setting.get settings "wordpress_password") = false) :
    publish_to_wordpress settings post http =
      (Except.error (PublishError.config "WordPress credentials not configured"), []) ∧
    publish_to_wordpress_main settings post http =
      (Except.error (PublishError.config "WordPress credentials not configured"), []) := by
  have hcore : ∀ tmo : Option Nat,
      publish_to_wordpress_core tmo settings post http =
        (Except.error (PublishError.config "WordPress credentials not configured"), []) := by
    intro tmo
    unfold publish_to_wordpress_core
    rcases h with h | h | h <;> simp [h]
  exact ⟨hcore (some 30), hcore none⟩

/-- All three WordPress settings stored as empty strings. -/
def emptyWpSettings : Settings :=
  [("wordpress_url", ""), ("wordpress_username", ""), ("wordpress_password", "")]

/-- Witness for C2: all three credentials present but empty. -/
theorem c2_witness :
    publish_to_wordpress emptyWpSettings draftPost http201 =
      (Except.error (PublishError.config "WordPress credentials not configured"), []) ∧
    publish_to_wordpress_main emptyWpSettings draftPost http201 =
      (Except.error (PublishError.config "WordPress credentials not configured"), []) :=
  c2_wordpress_missing_config_no_http emptyWpSettings draftPost http201 (Or.inl rfl)

/-- C5. Whatever the code, if `state` differs from the persisted
`blogger_oauth_state` token (in particular when none is persisted),
`handle_callback` fails with the authorization error after its single
equality comparison: the settings store is untouched and zero
token-exchange calls are made. -/
theorem c5_callback_state_mismatch_no_exchange
    (settings : Settings) (code state : String)
    (fetchToken : String → Except String CredData)
    (h : Setting.get settings "blogger_oauth_state" ≠ some state) :
    handle_callback settings code state fetchToken =
      (Except.error (CallbackError.authState "Invalid OAuth state"), settings, 0) := by
  unfold handle_callback
  simp [h]

/-- Witness for C5: a wrong state with an exchange oracle that would
succeed on any code. -/
theorem c5_witness :
    handle_callback [("blogger_oauth_state", "good-state")] "valid-code" "wrong-state"
        (fun _ => Except.ok cred0) =
      (Except.error (CallbackError.authState "Invalid OAuth state"),
       [("blogger_oauth_state", "good-state")], 0) :=
  c5_callback_state_mismatch_no_exchange _ _ _ _ (by decide)

/-- C6. `get_credentials`: with nothing (or an empty blob) stored it
returns no credential and makes no refresh call; with a stored blob that
deserializes to an expired credential it makes exactly one refresh call
and persists the refreshed blob before returning it; with a stored blob
that deserializes to a non-expired credential it makes zero refresh calls
and leaves the store unchanged. -/
theorem c6_get_credentials_refresh_discipline
    (settings : Settings) (isExpired : CredData → Bool)
    (refreshCred : CredData → Except String CredData) :
    (truthy (Setting.get settings "blogger_credentials") = false →
       get_credentials settings isExpired refreshCred = (Except.ok none, settings, 0)) ∧
    (∀ blob cred refreshed,
       Setting.get settings "blogger_credentials" = some blob →
       deserializeCreds blob = some cred →
       isExpired cred = true →
       refreshCred cred = Except.ok refreshed →
       get_credentials settings isExpired refreshCred =
         (Except.ok (some refreshed),
          Setting.set settings "blogger_credentials" (serializeCreds refreshed), 1)) ∧
    (∀ blob cred,
       Setting.get settings "blogger_credentials" = some blob →
       deserializeCreds blob = some cred →
       isExpired cred = false →
       get_credentials settings isExpired refreshCred =
         (Except.ok (some cred), settings, 0)) := by
  refine ⟨?_, ?_, ?_⟩
  · intro h
    unfold get_credentials
    simp [h]
  · intro blob cred refreshed hget hde hex hre
    have hne : (blob == "") = false := by
      cases hb : blob == "" with
      | false => rfl
      | true =>
          exfalso
          have hb' : blob = "" := eq_of_beq hb
          rw [hb'] at hde
          exact Option.noConfusion hde
    unfold get_credentials
    simp [hget, truthy, hne, hde, hex, hre]
  · intro blob cred hget hde hex
    have hne : (blob == "") = false := by
      cases hb : blob == "" with
      | false => rfl
      | true =>
          exfalso
          have hb' : blob = "" := eq_of_beq hb
          rw [hb'] at hde
          exact Option.noConfusion hde
    unfold get_credentials
    simp [hget, truthy, hne, hde, hex]

/-- Witness for C6: nothing stored gives no credential and 0 refreshes;
the stored expired `cred0` triggers exactly one refresh and persists the
refreshed blob; the stored non-expired refreshed credential triggers zero
refreshes and leaves the store unchanged. -/
theorem c6_witness :
    get_credentials [] isExpired0 refresh0 = (Except.ok none, [], 0) ∧
    get_credentials credSettings isExpired0 refresh0 =
      (Except.ok (some cred0refreshed),
       Setting.set credSettings "blogger_credentials" (serializeCreds cred0refreshed), 1) ∧
    get_credentials credSettingsFresh isExpired0 refresh0 =
      (Except.ok (some cred0refreshed), credSettingsFresh, 0) := by
  refine ⟨?_, ?_, ?_⟩
  · exact (c6_get_credentials_refresh_discipline [] isExpired0 refresh0).1 rfl
  · exact (c6_get_credentials_refresh_discipline credSettings isExpired0 refresh0).2.1
      (serializeCreds cred0) cred0 cred0refreshed rfl rfl rfl rfl
  · exact (c6_get_credentials_refresh_discipline credSettingsFresh isExpired0 refresh0).2.2
      (serializeCreds cred0refreshed) cred0refreshed rfl rfl rfl

/-- C3 (amended). With all three WordPress settings configured, each copy
of `publish_to_wordpress` issues exactly one authenticated POST —
`wpRequest` — whose timeout is the 30 seconds of the api-module copy or
absent for the monolithic copy; the result is the response body's id field
exactly when the status is 201, and any other status yields the publish
error carrying the response body text. -/
theorem c3_wordpress_single_authenticated_post
    (tmo : Option Nat) (settings : Settings) (post : Post)
    (http : HttpRequest → HttpResponse)
    (hu : truthy (Setting.get settings "wordpress_url") = true)
    (hn : truthy (Setting.get settings "wordpress_username") = true)
    (hp : truthy (Setting.get settings "wordpress_password") = true) :
    publish_to_wordpress settings post http =
      publish_to_wordpress_core (some 30) settings post http ∧
    publish_to_wordpress_main settings post http =
      publish_to_wordpress_core none settings post http ∧
    (publish_to_wordpress_core tmo settings post http).2 =
      [wpRequest tmo settings post] ∧
    (wpRequest tmo settings post).timeout = tmo ∧
    (wpRequest tmo settings post).authUser =
      (Setting.get settings "wordpress_username").getD "" ∧
    (wpRequest tmo settings post).authPassword =
      (Setting.get settings "wordpress_password").getD "" ∧
    ((http (wpRequest tmo settings post)).status_code = 201 →
      (publish_to_wordpress_core tmo settings post http).1 =
        Except.ok ((http (wpRequest tmo settings post)).idField)) ∧
    ((http (wpRequest tmo settings post)).status_code ≠ 201 →
      (publish_to_wordpress_core tmo settings post http).1 =
        Except.error (PublishError.api
          ("WordPress API error: " ++ (http (wpRequest tmo settings post)).text))) := by
  have hcore : publish_to_wordpress_core tmo settings post http =
      (if (http (wpRequest tmo settings post)).status_code == 201 then
         (Except.ok ((http (wpRequest tmo settings post)).idField),
          [wpRequest tmo settings post])
       else
         (Except.error (PublishError.api
            ("WordPress API error: " ++ (http (wpRequest tmo settings post)).text)),
          [wpRequest tmo settings post])) := by
    unfold publish_to_wordpress_core
    simp [hu, hn, hp]
  refine ⟨rfl, rfl, ?_, rfl, rfl, rfl, ?_, ?_⟩
  · rw [hcore]
    cases h201 : (http (wpRequest tmo settings post)).status_code == 201 <;> simp [h201]
  · intro h
    rw [hcore]
    simp [h]
  · intro h
    rw [hcore]
    have : ((http (wpRequest tmo settings post)).status_code == 201) = false :=
      beq_eq_false_iff_ne.mpr h
    simp [this]

/-- Witness for C3 (amended): the configured store issues exactly one POST
through the api-module copy; a 201 answer returns the body id `7`, a 403
answer fails with the body text, and the trace is the single request. -/
theorem c3_witness :
    (publish_to_wordpress wpSettings draftPost http201).1 = Except.ok "7" ∧
    (publish_to_wordpress wpSettings draftPost http403).1 =
      Except.error (PublishError.api
        "WordPress API error: Sorry, you are not allowed to do that.") ∧
    (publish_to_wordpress wpSettings draftPost http201).2 =
      [wpRequest (some 30) wpSettings draftPost] := by
  have h1 := c3_wordpress_single_authenticated_post (some 30) wpSettings draftPost
    http201 rfl rfl rfl
  have h2 := c3_wordpress_single_authenticated_post (some 30) wpSettings draftPost
    http403 rfl rfl rfl
  refine ⟨?_, ?_, ?_⟩
  · rw [h1.1]
    exact h1.2.2.2.2.2.2.1 rfl
  · rw [h2.1]
    exact h2.2.2.2.2.2.2.2 (by decide)
  · rw [h1.1]
    exact h1.2.2.1

/-- C4. With the configured `blog_type` equal to `blogger`, the publish
route updates the post in place with the literal external id
`blogger_post_id`, status `published` and a fresh `published_date`,
answers success, and issues zero HTTP calls; moreover the whole outcome is
the same for any settings store whose `blog_type` is `blogger` and any
HTTP oracle, so no credential setting and no network response can
influence it. -/
theorem c4_blogger_publish_local_only
    (wpTo : Option Nat) (settings : Settings) (posts : List Post)
    (pid : Nat) (post : Post) (now : Nat) (http : HttpRequest → HttpResponse)
    (hb : Setting.get settings "blog_type" = some "blogger")
    (hpid : pid ≠ 0)
    (hfind : posts.find? (fun p => p.id == pid) = some post) :
    publish_post_route_core wpTo settings posts (some pid) now http =
      (posts.map (fun q =>
         if q.id == post.id then
           { post with
             status := "published"
             published_date := some now
             external_id := some "blogger_post_id" }
         else q),
       JsonResponse.success "Post published successfully!", []) ∧
    (∀ (settings2 : Settings) (http2 : HttpRequest → HttpResponse),
       Setting.get settings2 "blog_type" = some "blogger" →
       publish_post_route_core wpTo settings2 posts (some pid) now http2 =
         publish_post_route_core wpTo settings posts (some pid) now http) := by
  have main : ∀ (s : Settings) (f : HttpRequest → HttpResponse),
      Setting.get s "blog_type" = some "blogger" →
      publish_post_route_core wpTo s posts (some pid) now f =
        (posts.map (fun q =>
           if q.id == post.id then
             { post with
               status := "published"
               published_date := some now
               external_id := some "blogger_post_id" }
           else q),
         JsonResponse.success "Post published successfully!", []) := by
    intro s f hs
    have htr : truthyId (some pid) = true := by
      simp [truthyId, hpid]
    unfold publish_post_route_core
    simp [htr, hfind, hs]
  refine ⟨main settings http hb, ?_⟩
  intro settings2 http2 h2
  rw [main settings2 http2 h2, main settings http hb]

/-- Witness for C4: a concrete blogger-configured store; the result is the
same under a second store that also carries WordPress credentials, and
under a different HTTP oracle. -/
theorem c4_witness :
    publish_post_route_core (some 30) [("blog_type", "blogger")] [draftPost]
        (some 1) 5 http201 =
      ([{ draftPost with
          status := "published"
          published_date := some 5
          external_id := some "blogger_post_id" }],
       JsonResponse.success "Post published successfully!", []) ∧
    publish_post_route_core (some 30)
        [("blog_type", "blogger"), ("wordpress_password", "hunter2")] [draftPost]
        (some 1) 5 http403 =
      publish_post_route_core (some 30) [("blog_type", "blogger")] [draftPost]
        (some 1) 5 http201 := by
  have h := c4_blogger_publish_local_only (some 30) [("blog_type", "blogger")]
    [draftPost] 1 draftPost 5 http201 rfl (by decide) rfl
  refine ⟨?_, h.2 _ http403 rfl⟩
  rw [h.1]
  rfl

/-- C8 (amended). The Blogger payload is built from `title` and `content`;
the `labels` field is present exactly when `post.tags` is truthy and then
holds the comma-split, stripped entries with empty entries retained (not
dropped, unlike the tag usage counter); `categories` never influences the
payload. -/
theorem c8_blogger_payload_mapping (post : Post) :
    (build_blogger_post post).title = post.title ∧
    (build_blogger_post post).content = post.content ∧
    (post.tags = "" → (build_blogger_post post).labels = none) ∧
    (post.tags ≠ "" → (build_blogger_post post).labels =
       some ((pySplit ',' post.tags).map pyStrip)) ∧
    (∀ cs : String, build_blogger_post { post with categories := cs } =
       build_blogger_post post) := by
  refine ⟨rfl, rfl, ?_, ?_, ?_⟩
  · intro h
    simp [build_blogger_post, h]
  · intro h
    have : (post.tags == "") = false := beq_eq_false_iff_ne.mpr h
    simp [build_blogger_post, this]
  · intro cs
    rfl

/-- Witness for C8 (amended): the payload for `draftPost`
(`tags = "a,,b"`, `categories = "x"`) keeps the empty middle label and is
untouched by replacing the categories. -/
theorem c8_witness :
    (build_blogger_post draftPost).title = "T" ∧
    (build_blogger_post draftPost).labels = some ["a", "", "b"] ∧
    build_blogger_post { draftPost with categories := "y,z" } =
      build_blogger_post draftPost := by
  have h := c8_blogger_payload_mapping draftPost
  refine ⟨h.1, ?_, h.2.2.2.2 "y,z"⟩
  rw [h.2.2.2.1 (by decide)]
  rfl

/-- Restore-loop lemma: when every backup tag name is absent from the
store and the backup names are distinct, the loop appends exactly the
restored rows in order. -/
theorem restoreTags_of_fresh (now : Nat) (tds : List TagExport) :
    ∀ store : List AvailableTag,
      (tds.map TagExport.name).Nodup →
      (∀ td ∈ tds, store.any (fun t => t.name == td.name) = false) →
      restoreTags now store tds = store ++ tds.map (restoredTag now) := by
  induction tds with
  | nil =>
      intro store _ _
      simp [restoreTags]
  | cons td tds ih =>
      intro store hnodup hfresh
      have hhead : store.any (fun t => t.name == td.name) = false :=
        hfresh td (List.mem_cons_self _ _)
      have hstep : restoreTags now store (td :: tds) =
          restoreTags now (store ++ [restoredTag now td]) tds := by
        simp [restoreTags, restoreTag, hhead]
      rw [hstep]
      rw [List.map_cons, List.nodup_cons] at hnodup
      have hfresh2 : ∀ td2 ∈ tds,
          (store ++ [restoredTag now td]).any (fun t => t.name == td2.name) = false := by
        intro td2 hmem
        have h1 : store.any (fun t => t.name == td2.name) = false :=
          hfresh td2 (List.mem_cons_of_mem _ hmem)
        have hne : td.name ≠ td2.name := by
          intro he
          exact hnodup.1 (he ▸ List.mem_map_of_mem TagExport.name hmem)
        have h2 : ((restoredTag now td).name == td2.name) = false := by
          simpa [restoredTag] using beq_eq_false_iff_ne.mpr hne
        simp [List.any_append, h1, h2]
      rw [ih (store ++ [restoredTag now td]) hnodup.2 hfresh2]
      simp

/-- Restore-loop lemma: when every backup tag name is already present, the
loop adds nothing. -/
theorem restoreTags_of_present (now : Nat) (tds : List TagExport) :
    ∀ store : List AvailableTag,
      (∀ td ∈ tds, store.any (fun t => t.name == td.name) = true) →
      restoreTags now store tds = store := by
  induction tds with
  | nil =>
      intro store _
      rfl
  | cons td tds ih =>
      intro store hall
      have hh : restoreTag now store td = store := by
        simp [restoreTag, hall td (List.mem_cons_self _ _)]
      have hstep : restoreTags now store (td :: tds) =
          restoreTags now (restoreTag now store td) tds := rfl
      rw [hstep, hh]
      exact ih store (fun td2 hm => hall td2 (List.mem_cons_of_mem _ hm))

/-- C10. Round trip: exporting any store via `backup_database` and
importing into the empty store reproduces the tag and category
name/usage-count sequences exactly and as many posts as were exported;
importing the same backup into the resulting store a second time leaves
tags and categories untouched (merge by unique name) while appending a
second copy of every post. Tag and category names are unique in the store
(database unique column). -/
theorem c10_backup_restore_roundtrip
    (db : Database) (now nid now2 nid2 : Nat)
    (htags : (db.tags.map AvailableTag.name).Nodup)
    (hcats : (db.categories.map AvailableTag.name).Nodup) :
    ((restore_database (backup_database db) emptyDatabase now nid).1.tags.map
        (fun t => (t.name, t.usage_count)) =
      db.tags.map (fun t => (t.name, t.usage_count))) ∧
    ((restore_database (backup_database db) emptyDatabase now nid).1.categories.map
        (fun t => (t.name, t.usage_count)) =
      db.categories.map (fun t => (t.name, t.usage_count))) ∧
    ((restore_database (backup_database db) emptyDatabase now nid).1.posts.length =
      db.posts.length) ∧
    ((restore_database (backup_database db)
        ((restore_database (backup_database db) emptyDatabase now nid).1)
        now2 nid2).1.tags =
      (restore_database (backup_database db) emptyDatabase now nid).1.tags) ∧
    ((restore_database (backup_database db)
        ((restore_database (backup_database db) emptyDatabase now nid).1)
        now2 nid2).1.categories =
      (restore_database (backup_database db) emptyDatabase now nid).1.categories) ∧
    ((restore_database (backup_database db)
        ((restore_database (backup_database db) emptyDatabase now nid).1)
        now2 nid2).1.posts.length =
      2 * db.posts.length) := by
  have hname : ∀ store : List AvailableTag,
      ((store.map exportTag).map TagExport.name) = store.map AvailableTag.name := by
    intro store
    rw [List.map_map]
    rfl
  have hfreshEmpty : ∀ (store : List AvailableTag),
      ∀ td ∈ store.map exportTag,
        (([] : List AvailableTag).any (fun t => t.name == td.name) = false) := by
    intro store td _
    rfl
  have htags1 : (restore_database (backup_database db) emptyDatabase now nid).1.tags =
      (db.tags.map exportTag).map (restoredTag now) := by
    show restoreTags now [] (db.tags.map exportTag) = _
    rw [restoreTags_of_fresh now (db.tags.map exportTag) [] (by rw [hname]; exact htags)
      (hfreshEmpty db.tags)]
    rfl
  have hcats1 : (restore_database (backup_database db) emptyDatabase now nid).1.categories =
      (db.categories.map exportTag).map (restoredTag now) := by
    show restoreTags now [] (db.categories.map exportTag) = _
    rw [restoreTags_of_fresh now (db.categories.map exportTag) []
      (by rw [hname]; exact hcats) (hfreshEmpty db.categories)]
    rfl
  have hpresent : ∀ store : List AvailableTag,
      ∀ td ∈ store.map exportTag,
        ((store.map exportTag).map (restoredTag now)).any
          (fun t => t.name == td.name) = true := by
    intro store td hmem
    rw [List.any_eq_true]
    refine ⟨restoredTag now td, List.mem_map_of_mem _ hmem, ?_⟩
    simp [restoredTag]
  have htags2 : (restore_database (backup_database db)
      ((restore_database (backup_database db) emptyDatabase now nid).1)
      now2 nid2).1.tags =
      (restore_database (backup_database db) emptyDatabase now nid).1.tags := by
    show restoreTags now2
      (restore_database (backup_database db) emptyDatabase now nid).1.tags
      (db.tags.map exportTag) = _
    rw [htags1]
    exact restoreTags_of_present now2 (db.tags.map exportTag) _ (hpresent db.tags)
  have hcats2 : (restore_database (backup_database db)
      ((restore_database (backup_database db) emptyDatabase now nid).1)
      now2 nid2).1.categories =
      (restore_database (backup_database db) emptyDatabase now nid).1.categories := by
    show restoreTags now2
      (restore_database (backup_database db) emptyDatabase now nid).1.categories
      (db.categories.map exportTag) = _
    rw [hcats1]
    exact restoreTags_of_present now2 (db.categories.map exportTag) _
      (hpresent db.categories)
  have hposts1 : (restore_database (backup_database db) emptyDatabase now nid).1.posts.length =
      db.posts.length := by
    show (restorePosts now nid [] ((backup_database db).posts)).length = _
    simp [restorePosts, backup_database]
  refine ⟨?_, ?_, hposts1, htags2, hcats2, ?_⟩
  · rw [htags1, List.map_map, List.map_map]
    rfl
  · rw [hcats1, List.map_map, List.map_map]
    rfl
  · show (restorePosts now2 nid2
      (restore_database (backup_database db) emptyDatabase now nid).1.posts
      ((backup_database db).posts)).length = 2 * db.posts.length
    have hlen : ((backup_database db).posts).length = db.posts.length := by
      simp [backup_database]
    simp [restorePosts, hposts1, hlen]
    omega

/-- A concrete store with posts, tags and categories for the round-trip
witness. -/
def sampleDatabase : Database :=
  { settings := [("blog_type", "wordpress"), ("wordpress_password", "pw")],
    posts := [publishedPost],
    tags := [{ name := "a", usage_count := 3, description := "", created_date := 0 },
             { name := "b", usage_count := 1, description := "tips", created_date := 2 }],
    categories := [{ name := "Tech", usage_count := 2, description := "", created_date := 0 }] }

/-- Witness for C10 at `sampleDatabase`. -/
theorem c10_witness :
    ((restore_database (backup_database sampleDatabase) emptyDatabase 7 10).1.tags.map
        (fun t => (t.name, t.usage_count)) =
      sampleDatabase.tags.map (fun t => (t.name, t.usage_count))) ∧
    ((restore_database (backup_database sampleDatabase) emptyDatabase 7 10).1.categories.map
        (fun t => (t.name, t.usage_count)) =
      sampleDatabase.categories.map (fun t => (t.name, t.usage_count))) ∧
    ((restore_database (backup_database sampleDatabase) emptyDatabase 7 10).1.posts.length =
      sampleDatabase.posts.length) ∧
    ((restore_database (backup_database sampleDatabase)
        ((restore_database (backup_database sampleDatabase) emptyDatabase 7 10).1)
        8 20).1.tags =
      (restore_database (backup_database sampleDatabase) emptyDatabase 7 10).1.tags) ∧
    ((restore_database (backup_database sampleDatabase)
        ((restore_database (backup_database sampleDatabase) emptyDatabase 7 10).1)
        8 20).1.categories =
      (restore_database (backup_database sampleDatabase) emptyDatabase 7 10).1.categories) ∧
    ((restore_database (backup_database sampleDatabase)
        ((restore_database (backup_database sampleDatabase) emptyDatabase 7 10).1)
        8 20).1.posts.length =
      2 * sampleDatabase.posts.length) :=
  c10_backup_restore_roundtrip sampleDatabase 7 10 8 20 (by decide) (by decide)

/-- Case shape of the publish route: either it fails and leaves the post
table exactly as it was, or the request carried a truthy post id that
resolved to a stored post and the route answers success after updating
that post's `status`, `published_date` and `external_id` in one step. -/
theorem publish_post_route_core_shape (wpTo : Option Nat) (settings : Settings)
    (posts : List Post) (postId : Option Nat) (now : Nat)
    (http : HttpRequest → HttpResponse) :
    (∃ err trace, publish_post_route_core wpTo settings posts postId now http =
       (posts, JsonResponse.failure err, trace)) ∨
    (∃ pid post extId trace, postId = some pid ∧
       posts.find? (fun p => p.id == pid) = some post ∧
       publish_post_route_core wpTo settings posts postId now http =
         (posts.map (fun q =>
            if q.id == post.id then
              { post with
                status := "published"
                published_date := some now
                external_id := some extId }
            else q),
          JsonResponse.success "Post published successfully!", trace)) := by
  unfold publish_post_route_core
  cases h1 : truthyId postId with
  | false =>
      left
      exact ⟨"Post ID required", [], by simp [h1]⟩
  | true =>
      cases postId with
      | none => simp [truthyId] at h1
      | some pid =>
          cases hfind : posts.find? (fun p => p.id == pid) with
          | none =>
              left
              refine ⟨"Post not found", [], ?_⟩
              simp only [h1, Bool.not_true, Bool.false_eq_true, if_false]
              rw [show (some pid).getD 0 = pid from rfl, hfind]
          | some post =>
              by_cases hb : Setting.get settings "blog_type" == some "blogger"
              · right
                refine ⟨pid, post, "blogger_post_id", [], rfl, hfind, ?_⟩
                simp only [h1, Bool.not_true, Bool.false_eq_true, if_false]
                rw [show (some pid).getD 0 = pid from rfl, hfind]
                simp [hb]
              · by_cases hw : Setting.get settings "blog_type" == some "wordpress"
                · rcases hpw : publish_to_wordpress_core wpTo settings post http with
                    ⟨res, reqs⟩
                  cases res with
                  | ok extId =>
                      right
                      refine ⟨pid, post, extId, reqs, rfl, hfind, ?_⟩
                      simp only [h1, Bool.not_true, Bool.false_eq_true, if_false]
                      rw [show (some pid).getD 0 = pid from rfl, hfind]
                      simp [hb, hw, hpw]
                  | error e =>
                      left
                      refine ⟨publishErrorMessage e, reqs, ?_⟩
                      simp only [h1, Bool.not_true, Bool.false_eq_true, if_false]
                      rw [show (some pid).getD 0 = pid from rfl, hfind]
                      simp [hb, hw, hpw]
                · left
                  refine ⟨"No blog platform configured", [], ?_⟩
                  simp only [h1, Bool.not_true, Bool.false_eq_true, if_false]
                  rw [show (some pid).getD 0 = pid from rfl, hfind]
                  simp [hb, hw]

/-- C1 (amended). `external_id` and `published_date` are modified only by
a successful publish, which sets both together: a save leaves an existing
post's pair untouched and creates drafts with both fields null, a delete
only removes rows, and a failed publish leaves the post table unchanged;
however a successful publish on an already published post sets the pair
again, and restore-from-backup creates rows whose `external_id` comes from
the backup while `published_date` is always null. -/
theorem c1_external_id_published_date_pairing :
    (∀ (db : Database) (data : SaveData) (now nid : Nat)
       (db1 : Database) (resp : JsonResponse),
       save_post_route db data now nid = some (db1, resp) →
       ∀ p1 ∈ db1.posts,
         (∃ p ∈ db.posts, p.id = p1.id ∧ p1.external_id = p.external_id ∧
            p1.published_date = p.published_date) ∨
         (p1.external_id = none ∧ p1.published_date = none)) ∧
    (∀ (posts : List Post) (pid : Nat) (p1 : Post),
       p1 ∈ delete_post_route posts pid → p1 ∈ posts) ∧
    (∀ (wpTo : Option Nat) (settings : Settings) (posts : List Post)
       (postId : Option Nat) (now : Nat) (http : HttpRequest → HttpResponse)
       (err : String),
       (publish_post_route_core wpTo settings posts postId now http).2.1 =
         JsonResponse.failure err →
       (publish_post_route_core wpTo settings posts postId now http).1 = posts) ∧
    (∀ (wpTo : Option Nat) (settings : Settings) (posts : List Post)
       (postId : Option Nat) (now : Nat) (http : HttpRequest → HttpResponse)
       (msg : String),
       (publish_post_route_core wpTo settings posts postId now http).2.1 =
         JsonResponse.success msg →
       ∃ pid post extId, postId = some pid ∧
         posts.find? (fun p => p.id == pid) = some post ∧
         (publish_post_route_core wpTo settings posts postId now http).1 =
           posts.map (fun q =>
             if q.id == post.id then
               { post with
                 status := "published"
                 published_date := some now
                 external_id := some extId }
             else q)) ∧
    (∀ (doc : BackupDoc) (db : Database) (now nid : Nat) (p1 : Post),
       p1 ∈ (restore_database doc db now nid).1.posts →
       p1 ∈ db.posts ∨ p1.published_date = none) := by
  refine ⟨?_, ?_, ?_, ?_, ?_⟩
  · intro db data now nid db1 resp hsave p1 hp1
    unfold save_post_route at hsave
    by_cases hid : truthyId data.id
    · rw [if_pos hid] at hsave
      cases hfind : db.posts.find? (fun p => p.id == data.id.getD 0) with
      | none =>
          rw [hfind] at hsave
          exact absurd hsave (by simp)
      | some post =>
          rw [hfind] at hsave
          simp only [Option.some.injEq, Prod.mk.injEq] at hsave
          obtain ⟨hdb1, -⟩ := hsave
          rw [← hdb1] at hp1
          simp only [List.mem_map] at hp1
          obtain ⟨q, hq, hfq⟩ := hp1
          left
          split at hfq
          · exact ⟨post, List.mem_of_find?_eq_some hfind, by rw [← hfq], by rw [← hfq],
              by rw [← hfq]⟩
          · exact ⟨q, hq, by rw [← hfq], by rw [← hfq], by rw [← hfq]⟩
    · rw [if_neg hid] at hsave
      simp only [Option.some.injEq, Prod.mk.injEq] at hsave
      obtain ⟨hdb1, -⟩ := hsave
      rw [← hdb1] at hp1
      rcases List.mem_append.mp hp1 with h | h
      · exact Or.inl ⟨p1, h, rfl, rfl, rfl⟩
      · right
        rw [List.mem_singleton.mp h]
        exact ⟨rfl, rfl⟩
  · intro posts pid p1 hp1
    exact List.mem_of_mem_filter hp1
  · intro wpTo settings posts postId now http err hresp
    rcases publish_post_route_core_shape wpTo settings posts postId now http with
      ⟨e, tr, heq⟩ | ⟨pid, post, extId, tr, hpid, hfind, heq⟩
    · rw [heq]
    · rw [heq] at hresp
      exact absurd hresp (by simp)
  · intro wpTo settings posts postId now http msg hresp
    rcases publish_post_route_core_shape wpTo settings posts postId now http with
      ⟨e, tr, heq⟩ | ⟨pid, post, extId, tr, hpid, hfind, heq⟩
    · rw [heq] at hresp
      exact absurd hresp (by simp)
    · exact ⟨pid, post, extId, hpid, hfind, by rw [heq]⟩
  · intro doc db now nid p1 hp1
    have hposts : (restore_database doc db now nid).1.posts =
        db.posts ++ doc.posts.enum.map (fun pr => restorePost nid now pr.1 pr.2) := rfl
    rw [hposts] at hp1
    rcases List.mem_append.mp hp1 with h | h
    · exact Or.inl h
    · right
      rcases List.mem_map.mp h with ⟨pr, -, hpr⟩
      rw [← hpr]
      rfl

/-- A save request creating a fresh post. -/
def saveData0 : SaveData :=
  { id := none, title := "T", content := "C", tags := "a", categories := "" }

/-- Witness for C1 (amended): the post created by a concrete save has both
fields null; a concrete delete only removes rows; a concrete failed
WordPress publish (credentials missing) leaves the table unchanged; the
concrete successful blogger publish has the success shape; a restored
concrete post has a null `published_date`. -/
theorem c1_witness :
    ((∃ p ∈ emptyDatabase.posts,
        p.id = (1 : Nat) ∧ (none : Option String) = p.external_id ∧
        (none : Option Nat) = p.published_date) ∨
      ((none : Option String) = none ∧ (none : Option Nat) = none)) ∧
    publishedPost ∈ [publishedPost, draftPost] ∧
    (publish_post_route_core (some 30) [("blog_type", "wordpress")] [draftPost]
        (some 1) 7 http201).1 = [draftPost] ∧
    (∃ pid post extId, (some 1 : Option Nat) = some pid ∧
       [publishedPost].find? (fun p => p.id == pid) = some post ∧
       (publish_post_route_core none [("blog_type", "blogger")] [publishedPost]
           (some 1) 8 http201).1 =
         [publishedPost].map (fun q =>
           if q.id == post.id then
             { post with
               status := "published"
               published_date := some 8
               external_id := some extId }
           else q)) ∧
    ((restore_database publishedBackup emptyDatabase 9 1).1.posts ≠ [] →
       ∀ p1 ∈ (restore_database publishedBackup emptyDatabase 9 1).1.posts,
         p1 ∈ emptyDatabase.posts ∨ p1.published_date = none) := by
  have h := c1_external_id_published_date_pairing
  refine ⟨?_, ?_, ?_, ?_, ?_⟩
  · have hs := h.1 emptyDatabase saveData0 1 1
      { emptyDatabase with
        posts := [{ id := 1, title := "T", content := "C", status := "draft",
                    created_date := 1, published_date := none, blog_target := none,
                    external_id := none, tags := "a", categories := "" }],
        tags := increment_usage emptyDatabase.tags "a" 1 }
      (JsonResponse.successId 1) rfl
    have hm := hs { id := 1, title := "T", content := "C", status := "draft",
                    created_date := 1, published_date := none, blog_target := none,
                    external_id := none, tags := "a", categories := "" }
      (List.mem_singleton.mpr rfl)
    exact hm
  · exact h.2.1 [publishedPost, draftPost] 2 publishedPost (by decide)
  · exact h.2.2.1 (some 30) [("blog_type", "wordpress")] [draftPost] (some 1) 7 http201
      "WordPress credentials not configured" rfl
  · exact h.2.2.2.1 none [("blog_type", "blogger")] [publishedPost] (some 1) 8 http201
      "Post published successfully!" rfl
  · intro hne p1 hp1
    exact h.2.2.2.2 publishedBackup emptyDatabase 9 1 p1 hp1

end BlogPublisher
